import Mathlib

/-!
Shallow embedding of the real-time voice streaming service
(`src/server/services/voiceStreaming.ts`, class `VoiceStreamingService`).

The service keeps two maps: `activeSessions : Map streamSessionId Session`
and `sessionKeyMap : Map sessionId streamSessionId`.  Its operations are
embedded as pure state-transition functions; all I/O (messages sent to the
client, frames sent to the ElevenLabs synthesis socket, usage reports,
webhook posts and audit-log writes, audio-cache writes) is reified as an
explicit list of `Effect`s.  External collaborators (the Gemini
transcription provider, the N8N webhook endpoint, the session store) are
nondeterministic, so their outcomes are parameters of the embedding.
-/

namespace VoiceStreaming

/-- Ready state of a `ws` WebSocket (`CONNECTING`/`OPEN`/`CLOSING`/`CLOSED`). -/
inductive WsState
  | CONNECTING
  | OPEN
  | CLOSING
  | CLOSED
deriving Repr, DecidableEq

/-- The per-session record, mirroring `interface VoiceStreamingSession`.
`elevenLabsWs` is `none` when no socket object is attached, otherwise it
carries the socket's ready state. -/
structure VoiceStreamingSession where
  sessionId : String
  conversationId : String
  personality : String
  elevenLabsWs : Option WsState
  isActive : Bool
  startTime : Nat
deriving Repr, DecidableEq

/-- The mutable state of `VoiceStreamingService`: the two JS `Map`s,
embedded as association lists with unique keys (JS `Map.set` replaces in
place, `Map.delete` removes the entry). -/
structure ServiceState where
  activeSessions : List (String × VoiceStreamingSession)
  sessionKeyMap : List (String × String)
deriving Repr, DecidableEq

/-- `Map.get`: first binding of the key, if any. -/
def mapGet {α : Type} (m : List (String × α)) (k : String) : Option α :=
  match m with
  | [] => none
  | (k2, v) :: rest => if k2 = k then some v else mapGet rest k

/-- `Map.set`: replace the binding in place if the key is present,
otherwise append a fresh binding. -/
def mapSet {α : Type} (m : List (String × α)) (k : String) (v : α) :
    List (String × α) :=
  match m with
  | [] => [(k, v)]
  | (k2, v2) :: rest =>
    if k2 = k then (k, v) :: rest else (k2, v2) :: mapSet rest k v

/-- `Map.delete`: remove every binding of the key (there is at most one). -/
def mapDelete {α : Type} (m : List (String × α)) (k : String) :
    List (String × α) :=
  match m with
  | [] => []
  | (k2, v2) :: rest =>
    if k2 = k then mapDelete rest k else (k2, v2) :: mapDelete rest k

/-- Keys of an association list. -/
def keysOf {α : Type} (m : List (String × α)) : List String :=
  m.map Prod.fst

theorem mapGet_set_eq {α : Type} (m : List (String × α)) (k : String) (v : α) :
    mapGet (mapSet m k v) k = some v := by
  induction m with
  | nil => simp [mapSet, mapGet]
  | cons hd tl ih =>
    obtain ⟨k2, v2⟩ := hd
    by_cases h : k2 = k
    · simp [mapSet, mapGet, h]
    · simp [mapSet, mapGet, h, ih]

theorem mapGet_set_ne {α : Type} (m : List (String × α)) (k k2 : String)
    (v : α) (hne : k2 ≠ k) : mapGet (mapSet m k v) k2 = mapGet m k2 := by
  have hne2 : ¬ k = k2 := fun h => hne h.symm
  induction m with
  | nil => simp [mapSet, mapGet, hne2]
  | cons hd tl ih =>
    obtain ⟨k3, v3⟩ := hd
    by_cases h : k3 = k
    · subst h
      simp [mapSet, mapGet, hne2]
    · simp only [mapSet, if_neg h, mapGet]
      by_cases h2 : k3 = k2 <;> simp [h2, ih]

theorem mapGet_delete_eq {α : Type} (m : List (String × α)) (k : String) :
    mapGet (mapDelete m k) k = none := by
  induction m with
  | nil => simp [mapDelete, mapGet]
  | cons hd tl ih =>
    obtain ⟨k2, v2⟩ := hd
    by_cases h : k2 = k
    · simp [mapDelete, h, ih]
    · simp [mapDelete, mapGet, h, ih]

theorem mapGet_delete_ne {α : Type} (m : List (String × α)) (k k2 : String)
    (hne : k2 ≠ k) : mapGet (mapDelete m k) k2 = mapGet m k2 := by
  have hne2 : ¬ k = k2 := fun h => hne h.symm
  induction m with
  | nil => simp [mapDelete, mapGet]
  | cons hd tl ih =>
    obtain ⟨k3, v3⟩ := hd
    by_cases h : k3 = k
    · subst h
      simp [mapDelete, mapGet, hne2, ih]
    · simp only [mapDelete, if_neg h, mapGet]
      by_cases h2 : k3 = k2 <;> simp [h2, ih]

theorem mem_keys_set {α : Type} (m : List (String × α)) (k x : String) (v : α) :
    x ∈ keysOf (mapSet m k v) ↔ x ∈ keysOf m ∨ x = k := by
  induction m with
  | nil => simp [mapSet, keysOf]
  | cons hd tl ih =>
    obtain ⟨k2, v2⟩ := hd
    by_cases h : k2 = k
    · subst h
      have hms : mapSet ((k2, v2) :: tl) k2 v = (k2, v) :: tl := by
        simp [mapSet]
      rw [hms]
      simp only [keysOf, List.map_cons, List.mem_cons]
      tauto
    · have hms : mapSet ((k2, v2) :: tl) k v = (k2, v2) :: mapSet tl k v := by
        simp [mapSet, h]
      rw [hms]
      simp only [keysOf, List.map_cons, List.mem_cons]
      rw [keysOf] at ih
      tauto

theorem nodup_keys_set {α : Type} (m : List (String × α)) (k : String) (v : α)
    (hnd : (keysOf m).Nodup) : (keysOf (mapSet m k v)).Nodup := by
  induction m with
  | nil => simp [mapSet, keysOf]
  | cons hd tl ih =>
    obtain ⟨k2, v2⟩ := hd
    rw [keysOf, List.map_cons, List.nodup_cons] at hnd
    by_cases h : k2 = k
    · subst h
      have hms : mapSet ((k2, v2) :: tl) k2 v = (k2, v) :: tl := by
        simp [mapSet]
      rw [hms]
      simpa only [keysOf, List.map_cons, List.nodup_cons] using hnd
    · have hms : mapSet ((k2, v2) :: tl) k v = (k2, v2) :: mapSet tl k v := by
        simp [mapSet, h]
      rw [hms]
      simp only [keysOf, List.map_cons, List.nodup_cons]
      refine ⟨?_, ih hnd.2⟩
      intro hmem
      rcases (mem_keys_set tl k k2 v).mp hmem with h2 | h2
      · exact hnd.1 h2
      · exact h h2

theorem keys_delete_sublist {α : Type} (m : List (String × α)) (k : String) :
    (keysOf (mapDelete m k)).Sublist (keysOf m) := by
  induction m with
  | nil => simp [mapDelete, keysOf]
  | cons hd tl ih =>
    obtain ⟨k2, v2⟩ := hd
    by_cases h : k2 = k
    · simp only [mapDelete, h, if_pos rfl, keysOf, List.map_cons]
      exact ih.trans (List.sublist_cons_self _ _)
    · simp only [mapDelete, h, if_neg h, keysOf, List.map_cons]
      exact ih.cons₂ _

theorem nodup_keys_delete {α : Type} (m : List (String × α)) (k : String)
    (hnd : (keysOf m).Nodup) : (keysOf (mapDelete m k)).Nodup :=
  hnd.sublist (keys_delete_sublist m k)

/-! ## Messages, frames and effects -/

/-- Outbound messages sent on the client WebSocket (`clientWs.send`). -/
inductive ClientMsg
  | voiceReady
  | audioProcessing
  | transcript (text : String)
  | aiResponse (text : String)
  | audioOutput (audio : String) (alignment : Option String)
  | error (message : String)
deriving Repr, DecidableEq

/-- A JSON frame sent to the ElevenLabs synthesis socket after the BOS
frame.  An `Option` field is `none` when the corresponding key is absent
from the JSON object the code sends. -/
structure ElevenFrame where
  text : String
  tryTriggerGeneration : Option Bool := none
  flush : Option Bool := none
deriving Repr, DecidableEq

/-- The payload `routeToN8NWebhook` posts to the N8N webhook. -/
structure WebhookPayload where
  personality : String
  modality : String
  sessionId : String
  conversationId : String
  content : String
  tier : String
  tokenBalance : Nat
  walletAddress : Option String
  timestamp : Nat
deriving Repr, DecidableEq

/-- The audit-log record written through `storage.createWebhookLog`. -/
structure WebhookLogRecord where
  sessionId : String
  conversationId : String
  requestPersonality : String
  requestModality : String
  requestContent : String
  status : String
deriving Repr, DecidableEq

/-- Observable side effects of the service, in program order. -/
inductive Effect
  | sendClient (msg : ClientMsg)
  | sendEleven (frame : ElevenFrame)
  | closeEleven
  | incrementVoiceMinutes (sessionId : String) (minutes : Nat)
  | routerPost (payload : WebhookPayload)
  | webhookLog (rec : WebhookLogRecord)
  | cacheAudio (sessionId : String) (conversationId : String) (audio : String)
deriving Repr, DecidableEq

/-! ## External collaborator outcomes

Bodies of external calls are nondeterministic, so each handler takes the
outcome of the calls it makes as a parameter. -/

/-- The record returned by `storage.getSession(sessionId)`, restricted to
the fields `routeToN8NWebhook` reads.  A `none` field was absent. -/
structure StoredSession where
  tier : Option String := none
  tokenBalance : Option Nat := none
  walletAddress : Option String := none
deriving Repr, DecidableEq

/-- The parsed body of the webhook reply (`response.data`), restricted to
the fields the service reads (`?.response` and `?.text`). -/
structure RouterReply where
  response : Option String := none
  text : Option String := none
deriving Repr, DecidableEq

/-- Outcomes of the external calls made while handling one inbound client
message.  `geminiResult` is `Except.error`/`Except.ok response.text` of the
Gemini `generateContent` call; `postOutcome` is the result of
`axios.post` to the webhook; `storedSession` is `storage.getSession`;
`now` is `Date.now()` during the webhook call. -/
structure Env where
  geminiResult : Except Unit (Option String) := Except.ok none
  storedSession : Option StoredSession := none
  postOutcome : Except String RouterReply := Except.ok {}
  now : Nat := 0
deriving Repr

instance {ε α : Type} [DecidableEq ε] [DecidableEq α] :
    DecidableEq (Except ε α) := fun a b =>
  match a, b with
  | Except.ok x, Except.ok y =>
    if h : x = y then Decidable.isTrue (by rw [h])
    else Decidable.isFalse (fun hc => h (Except.ok.inj hc))
  | Except.error x, Except.error y =>
    if h : x = y then Decidable.isTrue (by rw [h])
    else Decidable.isFalse (fun hc => h (Except.error.inj hc))
  | Except.ok _, Except.error _ =>
    Decidable.isFalse (fun hc => Except.noConfusion hc)
  | Except.error _, Except.ok _ =>
    Decidable.isFalse (fun hc => Except.noConfusion hc)

/-- JavaScript `String.prototype.trim`: strip leading and trailing
whitespace (kernel-computable counterpart of the source's `.trim()`). -/
def jsTrim (s : String) : String :=
  String.mk
    (((s.data.dropWhile Char.isWhitespace).reverse.dropWhile
      Char.isWhitespace).reverse)

/-- JavaScript `a || b` on a possibly-absent string: `undefined` and the
empty string are falsy. -/
def jsOrStr (a : Option String) (b : String) : String :=
  match a with
  | some s => if s = "" then b else s
  | none => b

/-- JavaScript `a || b` on a possibly-absent number (`0` is falsy). -/
def jsOrNat (a : Option Nat) (b : Nat) : Nat :=
  match a with
  | some n => if n = 0 then b else n
  | none => b

/-! ## Service operations -/

/-- `Math.ceil(durationMs / (60 * 1000))` for a non-negative integral
duration, as computed by `cleanupSession`. -/
def durationMinutesOf (durationMs : Nat) : Nat :=
  (durationMs + 59999) / 60000

/-- The ceiling the spec describes: `ceil((now - startedAt) / 60s)` as a
mathematical ceiling of an exact rational division. -/
def specCeilMinutes (durationMs : Nat) : Int :=
  Int.ceil ((durationMs : ℚ) / 60000)

/-- The stream key built by `initializeVoiceSession`:
`` `${sessionId}-voice-${Date.now()}` ``. -/
def streamIdFor (sessionId : String) (now : Nat) : String :=
  sessionId ++ "-voice-" ++ toString now

/-- The registration step of `initializeVoiceSession` (lines 40–65):
builds the session record verbatim from the arguments, stores it under the
stream key, and records the `sessionId → streamSessionId` mapping.  `ws`
is the ElevenLabs socket attached by `initializeElevenLabs` right after
registration (`none` if the adapter never attached one).  Returns the new
state and the stream key. -/
def initializeVoiceSession (st : ServiceState) (sessionId : String)
    (conversationId : String) (personality : String) (now : Nat)
    (ws : Option WsState) : ServiceState × String :=
  let streamSessionId := streamIdFor sessionId now
  let voiceSession : VoiceStreamingSession :=
    { sessionId := sessionId
      conversationId := conversationId
      personality := personality
      elevenLabsWs := ws
      isActive := true
      startTime := now }
  ( { activeSessions := mapSet st.activeSessions streamSessionId voiceSession
      sessionKeyMap := mapSet st.sessionKeyMap sessionId streamSessionId },
    streamSessionId )

/-- `cleanupSession(streamSessionId)` (lines 481–512): looks the session
up; if absent it does nothing.  Otherwise it computes the rounded-up
duration, reports it via `incrementVoiceMinutes(session.sessionId, ...)`,
closes the ElevenLabs socket if one is attached, and deletes both the
primary and the secondary registry entries. -/
def cleanupSession (st : ServiceState) (streamSessionId : String)
    (now : Nat) : ServiceState × List Effect :=
  match mapGet st.activeSessions streamSessionId with
  | none => (st, [])
  | some session =>
    let durationMs := now - session.startTime
    let durationMinutes := durationMinutesOf durationMs
    let closeEffs : List Effect :=
      match session.elevenLabsWs with
      | some _ => [Effect.closeEleven]
      | none => []
    ( { activeSessions := mapDelete st.activeSessions streamSessionId
        sessionKeyMap := mapDelete st.sessionKeyMap session.sessionId },
      Effect.incrementVoiceMinutes session.sessionId durationMinutes
        :: closeEffs )

/-- `transcribeAudio` (lines 300–340): calls Gemini, trims
`response.text`, and throws if the call failed or the trimmed text is
missing or empty; the catch rethrows a generic error.  So the outcome is
either the non-empty trimmed transcription or the generic failure. -/
def transcribeAudio (geminiResult : Except Unit (Option String)) :
    Except String String :=
  match geminiResult with
  | Except.error _ => Except.error "Failed to transcribe audio"
  | Except.ok text? =>
    match text? with
    | none => Except.error "Failed to transcribe audio"
    | some t =>
      let transcription := jsTrim t
      if transcription.length = 0 then
        Except.error "Failed to transcribe audio"
      else
        Except.ok transcription

/-- `routeToN8NWebhook(text, voiceSession, personality)` (lines 345–399):
builds the payload (metadata from `storage.getSession` with JS `||`
defaults), posts it; on success writes one `success` audit record and
returns `response.data`; on failure writes one `error` audit record and
rethrows.  Returns the effect trace and the outcome. -/
def routeToN8NWebhook (text : String)
    (voiceSession : VoiceStreamingSession) (personality : String)
    (env : Env) : List Effect × Except String RouterReply :=
  let payload : WebhookPayload :=
    { personality := personality
      modality := "VOICE"
      sessionId := voiceSession.sessionId
      conversationId := voiceSession.conversationId
      content := text
      tier := jsOrStr (env.storedSession.bind fun s => s.tier) "Free Trial"
      tokenBalance :=
        jsOrNat (env.storedSession.bind fun s => s.tokenBalance) 0
      walletAddress := env.storedSession.bind fun s => s.walletAddress
      timestamp := env.now }
  match env.postOutcome with
  | Except.ok reply =>
    ( [Effect.routerPost payload,
       Effect.webhookLog
         { sessionId := voiceSession.sessionId
           conversationId := voiceSession.conversationId
           requestPersonality := personality
           requestModality := "VOICE"
           requestContent := text
           status := "success" }],
      Except.ok reply )
  | Except.error e =>
    ( [Effect.routerPost payload,
       Effect.webhookLog
         { sessionId := voiceSession.sessionId
           conversationId := voiceSession.conversationId
           requestPersonality := personality
           requestModality := "VOICE"
           requestContent := text
           status := "error" }],
      Except.error e )

/-- `processTextInput(text, voiceSession)` (lines 404–418): if the
ElevenLabs socket is missing or not `OPEN`, log and return; otherwise
send `{text, try_trigger_generation: true}`. -/
def processTextInput (text : String)
    (voiceSession : VoiceStreamingSession) : List Effect :=
  match voiceSession.elevenLabsWs with
  | some WsState.OPEN =>
    [Effect.sendEleven { text := text, tryTriggerGeneration := some true }]
  | _ => []

/-- `handleStopSpeaking(voiceSession)` (lines 423–433): if the ElevenLabs
socket is missing or not `OPEN`, return; otherwise send the flush frame
`{text: "", flush: true}`. -/
def handleStopSpeaking (voiceSession : VoiceStreamingSession) :
    List Effect :=
  match voiceSession.elevenLabsWs with
  | some WsState.OPEN =>
    [Effect.sendEleven { text := "", flush := some true }]
  | _ => []

/-- The reply-text resolution `webhookResponse?.response ||
webhookResponse?.text || fallback` (lines 220 and 277). -/
def responseTextOf (reply : RouterReply) (fallback : String) : String :=
  jsOrStr reply.response (jsOrStr reply.text fallback)

/-- `processAudioInput(audio, voiceSession, clientWs)` (lines 247–295):
acknowledge with `audio_processing`, transcribe; on an empty transcript
return silently; otherwise send the `transcript`, route through the
webhook, send `ai_response`, and synthesize.  Any throw inside the `try`
is caught and reported as a client-visible `error` message. -/
def processAudioInput (transcriptionOutcome : Except String String)
    (voiceSession : VoiceStreamingSession) (env : Env) : List Effect :=
  let ack := [Effect.sendClient ClientMsg.audioProcessing]
  match transcriptionOutcome with
  | Except.error _ =>
    ack ++ [Effect.sendClient (ClientMsg.error "Failed to process audio")]
  | Except.ok transcribedText =>
    if (jsTrim transcribedText).length = 0 then
      ack
    else
      let transcriptEff :=
        [Effect.sendClient (ClientMsg.transcript transcribedText)]
      let routed :=
        routeToN8NWebhook transcribedText voiceSession
          voiceSession.personality env
      match routed.2 with
      | Except.error _ =>
        ack ++ transcriptEff ++ routed.1 ++
          [Effect.sendClient (ClientMsg.error "Failed to process audio")]
      | Except.ok reply =>
        let responseText := responseTextOf reply transcribedText
        ack ++ transcriptEff ++ routed.1 ++
          [Effect.sendClient (ClientMsg.aiResponse responseText)] ++
          processTextInput responseText voiceSession

/-- Inbound client messages, discriminated by their `type` field. -/
inductive InboundMsg
  | audioInput (audio : String)
  | textInput (text : String)
  | stop
  | unknown (type : String)
deriving Repr, DecidableEq

/-- The `message` handler installed by `setupClientHandlers`
(lines 207–235).  The `audio_input` case transcribes then runs
`processAudioInput` (whose internal try/catch reports failures to the
client).  The `text_input` case routes the raw text and synthesizes the
resolved reply; a throw escapes to the outer catch, which only logs
(`console.error`) — no client message, no state change.  `stop` flushes;
unknown types are only logged. -/
def handleClientMessage (voiceSession : VoiceStreamingSession)
    (msg : InboundMsg) (env : Env) : List Effect :=
  match msg with
  | InboundMsg.audioInput _ =>
    processAudioInput (transcribeAudio env.geminiResult) voiceSession env
  | InboundMsg.textInput text =>
    let routed :=
      routeToN8NWebhook text voiceSession voiceSession.personality env
    match routed.2 with
    | Except.ok reply =>
      routed.1 ++ processTextInput (responseTextOf reply text) voiceSession
    | Except.error _ => routed.1
  | InboundMsg.stop => handleStopSpeaking voiceSession
  | InboundMsg.unknown _ => []

/-- One inbound client message as a step on the service state: the
`message` handler works on the captured `voiceSession` closure and never
touches the registry maps (only the `close` handler calls
`cleanupSession`), so the state passes through unchanged. -/
def onClientMessage (st : ServiceState)
    (voiceSession : VoiceStreamingSession) (msg : InboundMsg) (env : Env) :
    ServiceState × List Effect :=
  (st, handleClientMessage voiceSession msg env)

/-- The `close` handler installed by `setupClientHandlers`
(lines 237–240): tears the session down by its stream key. -/
def onClientClose (st : ServiceState) (streamSessionId : String)
    (now : Nat) : ServiceState × List Effect :=
  cleanupSession st streamSessionId now

/-- A message from the ElevenLabs socket, restricted to the fields the
handler reads. -/
structure ElevenResponse where
  audio : Option String := none
  alignment : Option String := none
  isFinal : Option Bool := none
deriving Repr, DecidableEq

/-- The ElevenLabs `message` handler installed by `initializeElevenLabs`
(lines 126–150): if `response.audio` is truthy, forward it to the client
as `audio_output`; if additionally `response.isFinal` is truthy, cache
the audio under the session's real `sessionId`. -/
def onElevenLabsMessage (resp : ElevenResponse)
    (voiceSession : VoiceStreamingSession) : List Effect :=
  match resp.audio with
  | none => []
  | some a =>
    if a = "" then []
    else
      Effect.sendClient (ClientMsg.audioOutput a resp.alignment) ::
        (match resp.isFinal with
         | some true =>
           [Effect.cacheAudio voiceSession.sessionId
              voiceSession.conversationId a]
         | _ => [])

/-! ## Registry traces and the consistency invariant -/

/-- Registry-mutating operations: session registration and teardown. -/
inductive Op
  | start (sessionId conversationId personality : String) (now : Nat)
      (ws : Option WsState)
  | cleanup (streamSessionId : String) (now : Nat)
deriving Repr, DecidableEq

/-- State reached after one operation. -/
def applyOp (st : ServiceState) : Op → ServiceState
  | Op.start sid cid p now ws =>
    (initializeVoiceSession st sid cid p now ws).1
  | Op.cleanup stream now => (cleanupSession st stream now).1

/-- State reached after a sequence of operations. -/
def runOps (st : ServiceState) (ops : List Op) : ServiceState :=
  ops.foldl applyOp st

/-- The empty registry the service starts with. -/
def emptyState : ServiceState := { activeSessions := [], sessionKeyMap := [] }

/-- Consistency of the two registry indices: unique keys on both maps,
every primary entry is backed by the matching secondary entry, and every
secondary entry points at a primary entry holding its `sessionId`. -/
def registryConsistent (st : ServiceState) : Prop :=
  (keysOf st.activeSessions).Nodup ∧
  (keysOf st.sessionKeyMap).Nodup ∧
  (∀ stream sess, mapGet st.activeSessions stream = some sess →
    mapGet st.sessionKeyMap sess.sessionId = some stream) ∧
  (∀ sid stream, mapGet st.sessionKeyMap sid = some stream →
    ∃ sess, mapGet st.activeSessions stream = some sess ∧
      sess.sessionId = sid)

/-- Precondition under which an operation keeps the registry consistent:
a session may only be started for a `sessionId` with no currently active
stream, under a stream key not already in use. -/
def opPrecond (st : ServiceState) : Op → Prop
  | Op.start sid _ _ now _ =>
    mapGet st.sessionKeyMap sid = none ∧
    mapGet st.activeSessions (streamIdFor sid now) = none
  | Op.cleanup _ _ => True

/-- A trace of operations each of which satisfies its precondition in the
state where it runs. -/
inductive SafeTrace : ServiceState → List Op → Prop
  | nil (st : ServiceState) : SafeTrace st []
  | cons (st : ServiceState) (op : Op) (ops : List Op)
      (hpre : opPrecond st op) (htail : SafeTrace (applyOp st op) ops) :
      SafeTrace st (op :: ops)

/-! ## Effect observations -/

/-- Is the effect a usage report (`incrementVoiceMinutes`)? -/
def isUsageReport : Effect → Bool
  | Effect.incrementVoiceMinutes _ _ => true
  | _ => false

/-- Is the effect a close of the synthesis socket? -/
def isCloseEleven : Effect → Bool
  | Effect.closeEleven => true
  | _ => false

/-- Is the effect an `error` message to the client? -/
def isClientError : Effect → Bool
  | Effect.sendClient (ClientMsg.error _) => true
  | _ => false

/-- Number of usage reports in an effect trace. -/
def usageCount (effs : List Effect) : Nat :=
  (effs.filter isUsageReport).length

/-- Number of synthesis-socket closes in an effect trace. -/
def closeCount (effs : List Effect) : Nat :=
  (effs.filter isCloseEleven).length

/-- Number of `error` messages to the client in an effect trace. -/
def clientErrorCount (effs : List Effect) : Nat :=
  (effs.filter isClientError).length

/-- The statuses of all audit-log records in an effect trace, in order. -/
def logStatuses (effs : List Effect) : List String :=
  effs.filterMap fun e =>
    match e with
    | Effect.webhookLog r => some r.status
    | _ => none

/-- The audit status that corresponds to a webhook-post outcome. -/
def postStatus : Except String RouterReply → String
  | Except.ok _ => "success"
  | Except.error _ => "error"

/-- The `sessionId` an effect reports to an external collaborator, if it
reports one. -/
def effectSessionId : Effect → Option String
  | Effect.incrementVoiceMinutes sid _ => some sid
  | Effect.webhookLog r => some r.sessionId
  | Effect.cacheAudio sid _ _ => some sid
  | Effect.routerPost p => some p.sessionId
  | _ => none

/-- Every effect in the trace that carries a `sessionId` carries `sid`. -/
def usesOnlySessionId (sid : String) (effs : List Effect) : Bool :=
  effs.all fun e => (effectSessionId e).getD sid == sid

/-- An example session with an open synthesis link, used as the concrete
input of witnesses and counterexamples. -/
def savantSession : VoiceStreamingSession :=
  { sessionId := "sess-1"
    conversationId := "conv-1"
    personality := "Savantist"
    elevenLabsWs := some WsState.OPEN
    isActive := true
    startTime := 0 }

/-! ## Claim theorems -/

/-- Claim C1: teardown is idempotent.  For every state and stream
identifier, after one `cleanupSession` the registry no longer holds the
stream identifier, a second `cleanupSession` on it finds no entry,
changes nothing and performs no effect, and the two invocations together
report usage at most once and close the synthesis link at most once. -/
theorem cleanup_idempotent (st : ServiceState) (stream : String)
    (n1 n2 : Nat) :
    (cleanupSession (cleanupSession st stream n1).1 stream n2).2 = [] ∧
    (cleanupSession (cleanupSession st stream n1).1 stream n2).1 =
      (cleanupSession st stream n1).1 ∧
    mapGet (cleanupSession st stream n1).1.activeSessions stream = none ∧
    usageCount ((cleanupSession st stream n1).2 ++
      (cleanupSession (cleanupSession st stream n1).1 stream n2).2) ≤ 1 ∧
    closeCount ((cleanupSession st stream n1).2 ++
      (cleanupSession (cleanupSession st stream n1).1 stream n2).2) ≤ 1 := by
  cases h : mapGet st.activeSessions stream with
  | none =>
    simp [cleanupSession, h, usageCount, closeCount]
  | some sess =>
    have hdel : mapGet (mapDelete st.activeSessions stream) stream = none :=
      mapGet_delete_eq _ _
    cases hws : sess.elevenLabsWs with
    | none =>
      simp [cleanupSession, h, hdel, hws, usageCount, closeCount,
        isUsageReport, isCloseEleven]
    | some w =>
      simp [cleanupSession, h, hdel, hws, usageCount, closeCount,
        isUsageReport, isCloseEleven]

/-- The integer division `cleanupSession` performs agrees with the exact
rational ceiling the spec describes. -/
theorem durationMinutesOf_eq_ceil (d : Nat) :
    (durationMinutesOf d : Int) = specCeilMinutes d := by
  unfold durationMinutesOf specCeilMinutes
  have hmod : (d + 59999) % 60000 < 60000 := Nat.mod_lt _ (by norm_num)
  have hdm : 60000 * ((d + 59999) / 60000) + (d + 59999) % 60000 =
      d + 59999 := Nat.div_add_mod _ _
  set n := (d + 59999) / 60000 with hn
  have h3 : d ≤ n * 60000 := by omega
  have h4 : n * 60000 ≤ d + 59999 := by omega
  symm
  rw [Int.ceil_eq_iff]
  refine ⟨?_, ?_⟩
  · rw [lt_div_iff₀ (by norm_num : (0 : ℚ) < 60000)]
    have h4q : (n : ℚ) * 60000 ≤ (d : ℚ) + 59999 := by exact_mod_cast h4
    push_cast
    linarith
  · rw [div_le_iff₀ (by norm_num : (0 : ℚ) < 60000)]
    have h3q : (d : ℚ) ≤ (n : ℚ) * 60000 := by exact_mod_cast h3
    push_cast
    linarith

/-- Claim C3 (amended): on teardown of a registered session the first
reported effect is a usage report for the session's own `sessionId` of
exactly `ceil(durationMs / 60s)` minutes; a 61-second session reports 2
minutes, an exactly-60-second session reports 1 minute, and a session
lasting between 1 and 1000 milliseconds reports 1 minute — but a session
lasting exactly 0 milliseconds reports 0 minutes. -/
theorem usage_minutes_round_up (st : ServiceState) (stream : String)
    (now : Nat) (sess : VoiceStreamingSession)
    (hreg : mapGet st.activeSessions stream = some sess) :
    (cleanupSession st stream now).2.head? =
      some (Effect.incrementVoiceMinutes sess.sessionId
        (durationMinutesOf (now - sess.startTime))) ∧
    (∀ d : Nat, (durationMinutesOf d : Int) = specCeilMinutes d) ∧
    durationMinutesOf 61000 = 2 ∧
    durationMinutesOf 60000 = 1 ∧
    (∀ d : Nat, 1 ≤ d → d ≤ 1000 → durationMinutesOf d = 1) ∧
    durationMinutesOf 0 = 0 := by
  refine ⟨?_, durationMinutesOf_eq_ceil, by decide, by decide, ?_, by decide⟩
  · cases hws : sess.elevenLabsWs <;>
      simp [cleanupSession, hreg, hws]
  · intro d h1 h2
    unfold durationMinutesOf
    omega

/-- Witness for C3: a registered session torn down after 61 seconds has a
usage report of 2 minutes as the first teardown effect. -/
theorem usage_minutes_round_up_witness :
    (cleanupSession
      { activeSessions := [("sess-1-voice-0", savantSession)],
        sessionKeyMap := [("sess-1", "sess-1-voice-0")] }
      "sess-1-voice-0" 61000).2.head? =
      some (Effect.incrementVoiceMinutes "sess-1" 2) :=
  (usage_minutes_round_up
    { activeSessions := [("sess-1-voice-0", savantSession)],
      sessionKeyMap := [("sess-1", "sess-1-voice-0")] }
    "sess-1-voice-0" 61000 savantSession rfl).1

/-- Claim C3 counterexample: a session torn down in the same millisecond
it started lasted 0 ms — inside the claim's "between 0 and 1000
milliseconds" range — yet its usage report says 0 minutes, not 1. -/
theorem zero_duration_reports_zero :
    (cleanupSession
      { activeSessions :=
          [("sess-1-voice-5",
            { sessionId := "sess-1", conversationId := "conv-1",
              personality := "Savantist", elevenLabsWs := none,
              isActive := true, startTime := 5 })],
        sessionKeyMap := [("sess-1", "sess-1-voice-5")] }
      "sess-1-voice-5" 5).2 =
      [Effect.incrementVoiceMinutes "sess-1" 0] ∧
    (0 : Nat) ≤ 1000 ∧ (0 : Nat) ≠ 1 := by
  refine ⟨rfl, by decide, by decide⟩

/-- Claim C4: the code contradicts the claim.  A provider transcription
result that is whitespace-only makes `transcribeAudio` throw (it rejects
empty trimmed text), so `processAudioInput` lands in its catch branch and
sends a client-visible `error` message — not the benign silent no-op the
claim describes.  (No transcript, no `ai_response` and no Router call
happen, but an `error` message is sent.) -/
theorem whitespace_transcription_triggers_error :
    transcribeAudio (Except.ok (some "   ")) =
      Except.error "Failed to transcribe audio" ∧
    processAudioInput (transcribeAudio (Except.ok (some "   ")))
      savantSession {} =
      [Effect.sendClient ClientMsg.audioProcessing,
       Effect.sendClient (ClientMsg.error "Failed to process audio")] ∧
    clientErrorCount
      (processAudioInput (transcribeAudio (Except.ok (some "   ")))
        savantSession {}) = 1 := by
  refine ⟨by decide, by decide, by decide⟩

/-- Claim C7: every Router call produces exactly one audit-log record —
with `success` status when the webhook post succeeds and `error` status
when it throws — and the call's outcome (the parsed reply, or the
propagated error) is exactly the post's outcome, returned after the log
record is in the effect trace. -/
theorem router_audit_log_exactly_once (text : String)
    (sess : VoiceStreamingSession) (personality : String) (env : Env) :
    logStatuses (routeToN8NWebhook text sess personality env).1 =
      [postStatus env.postOutcome] ∧
    (routeToN8NWebhook text sess personality env).2 = env.postOutcome := by
  cases h : env.postOutcome <;>
    simp [routeToN8NWebhook, h, logStatuses, postStatus]

/-- Claim C9: on a session whose synthesis link is open, an inbound
`stop` message makes the synthesis adapter receive exactly one flush
frame `{text: "", flush: true}` and nothing else, and the registry state
is unchanged (the session stays registered and active). -/
theorem stop_sends_single_flush (st : ServiceState)
    (sess : VoiceStreamingSession) (env : Env)
    (hws : sess.elevenLabsWs = some WsState.OPEN) :
    onClientMessage st sess InboundMsg.stop env =
      (st, [Effect.sendEleven
        { text := "", tryTriggerGeneration := none, flush := some true }]) := by
  simp [onClientMessage, handleClientMessage, handleStopSpeaking, hws]

/-- Witness for C9 at a concrete session. -/
theorem stop_sends_single_flush_witness :
    onClientMessage emptyState savantSession InboundMsg.stop {} =
      (emptyState, [Effect.sendEleven
        { text := "", tryTriggerGeneration := none, flush := some true }]) :=
  stop_sends_single_flush emptyState savantSession {} rfl

/-- Claim C10: when the synthesis socket is absent or not `OPEN`,
`processTextInput` and `handleStopSpeaking` send nothing at all — no
frame, no error, no client notification; the text or flush request is
silently dropped. -/
theorem closed_link_drops_silently (sess : VoiceStreamingSession)
    (text : String) (hws : sess.elevenLabsWs ≠ some WsState.OPEN) :
    processTextInput text sess = [] ∧ handleStopSpeaking sess = [] := by
  cases h : sess.elevenLabsWs with
  | none => simp [processTextInput, handleStopSpeaking, h]
  | some w =>
    cases w <;> simp_all [processTextInput, handleStopSpeaking]

/-- Witness for C10 at a session whose socket is in the `CLOSED` state. -/
theorem closed_link_drops_silently_witness :
    processTextInput "hello"
      { savantSession with elevenLabsWs := some WsState.CLOSED } = [] ∧
    handleStopSpeaking
      { savantSession with elevenLabsWs := some WsState.CLOSED } = [] :=
  closed_link_drops_silently
    { savantSession with elevenLabsWs := some WsState.CLOSED }
    "hello" (by decide)

/-- One registry operation keeps the two indices consistent, provided a
start only happens for a `sessionId` with no active stream and under an
unused stream key. -/
theorem consistent_applyOp (st : ServiceState) (op : Op)
    (h : registryConsistent st) (hpre : opPrecond st op) :
    registryConsistent (applyOp st op) := by
  obtain ⟨hnd1, hnd2, hfwd, hbwd⟩ := h
  cases op with
  | start sid cid p now ws =>
    obtain ⟨hsid, hstream⟩ := hpre
    refine ⟨nodup_keys_set _ _ _ hnd1, nodup_keys_set _ _ _ hnd2, ?_, ?_⟩
    · intro stream sess hget
      by_cases hk : stream = streamIdFor sid now
      · subst hk
        rw [show (applyOp st (Op.start sid cid p now ws)).activeSessions =
            mapSet st.activeSessions (streamIdFor sid now)
              { sessionId := sid, conversationId := cid, personality := p,
                elevenLabsWs := ws, isActive := true, startTime := now }
          from rfl, mapGet_set_eq] at hget
        injection hget with hsess
        subst hsess
        exact mapGet_set_eq _ _ _
      · rw [show (applyOp st (Op.start sid cid p now ws)).activeSessions =
            mapSet st.activeSessions (streamIdFor sid now)
              { sessionId := sid, conversationId := cid, personality := p,
                elevenLabsWs := ws, isActive := true, startTime := now }
          from rfl, mapGet_set_ne _ _ _ _ hk] at hget
        have hmap := hfwd _ _ hget
        have hne : sess.sessionId ≠ sid := by
          intro he
          rw [he, hsid] at hmap
          exact Option.noConfusion hmap
        rw [show (applyOp st (Op.start sid cid p now ws)).sessionKeyMap =
            mapSet st.sessionKeyMap sid (streamIdFor sid now) from rfl,
          mapGet_set_ne _ _ _ _ hne]
        exact hmap
    · intro sid2 stream hget
      by_cases hk : sid2 = sid
      · subst hk
        rw [show (applyOp st (Op.start sid2 cid p now ws)).sessionKeyMap =
            mapSet st.sessionKeyMap sid2 (streamIdFor sid2 now) from rfl,
          mapGet_set_eq] at hget
        injection hget with hstr
        subst hstr
        exact ⟨_, mapGet_set_eq _ _ _, rfl⟩
      · rw [show (applyOp st (Op.start sid cid p now ws)).sessionKeyMap =
            mapSet st.sessionKeyMap sid (streamIdFor sid now) from rfl,
          mapGet_set_ne _ _ _ _ hk] at hget
        obtain ⟨sess, hA, hs⟩ := hbwd _ _ hget
        have hne : stream ≠ streamIdFor sid now := by
          intro he
          rw [he, hstream] at hA
          exact Option.noConfusion hA
        refine ⟨sess, ?_, hs⟩
        rw [show (applyOp st (Op.start sid cid p now ws)).activeSessions =
            mapSet st.activeSessions (streamIdFor sid now)
              { sessionId := sid, conversationId := cid, personality := p,
                elevenLabsWs := ws, isActive := true, startTime := now }
          from rfl, mapGet_set_ne _ _ _ _ hne]
        exact hA
  | cleanup stream now =>
    cases hget : mapGet st.activeSessions stream with
    | none =>
      have hst : applyOp st (Op.cleanup stream now) = st := by
        simp [applyOp, cleanupSession, hget]
      rw [hst]
      exact ⟨hnd1, hnd2, hfwd, hbwd⟩
    | some sess =>
      have hst : applyOp st (Op.cleanup stream now) =
          { activeSessions := mapDelete st.activeSessions stream,
            sessionKeyMap := mapDelete st.sessionKeyMap sess.sessionId } := by
        simp [applyOp, cleanupSession, hget]
      rw [hst]
      have hKs : mapGet st.sessionKeyMap sess.sessionId = some stream :=
        hfwd _ _ hget
      refine ⟨nodup_keys_delete _ _ hnd1, nodup_keys_delete _ _ hnd2, ?_, ?_⟩
      · intro stream2 sess2 hget2
        have hne : stream2 ≠ stream := by
          intro he
          subst he
          rw [mapGet_delete_eq] at hget2
          exact Option.noConfusion hget2
        rw [mapGet_delete_ne _ _ _ hne] at hget2
        have hmap2 := hfwd _ _ hget2
        have hne2 : sess2.sessionId ≠ sess.sessionId := by
          intro he
          rw [he, hKs] at hmap2
          injection hmap2 with h2
          exact hne h2.symm
        rw [mapGet_delete_ne _ _ _ hne2]
        exact hmap2
      · intro sid2 stream2 hget2
        have hne : sid2 ≠ sess.sessionId := by
          intro he
          subst he
          rw [mapGet_delete_eq] at hget2
          exact Option.noConfusion hget2
        rw [mapGet_delete_ne _ _ _ hne] at hget2
        obtain ⟨sess2, hA2, hs2⟩ := hbwd _ _ hget2
        have hne2 : stream2 ≠ stream := by
          intro he
          subst he
          rw [hget] at hA2
          injection hA2 with h2
          apply hne
          rw [← hs2, h2]
        refine ⟨sess2, ?_, hs2⟩
        rw [mapGet_delete_ne _ _ _ hne2]
        exact hA2

/-- Claim C2 (amended): after every sequence of session starts and
teardowns in which each start happens for a `sessionId` with no currently
active stream and under an unused stream key, the registry holds at most
one Session per stream identifier (unique keys), the secondary index maps
each `sessionId` to at most one stream, and the primary and secondary
entries exist exactly in matched pairs — neither is ever present without
the other. -/
theorem registry_consistent_of_safeTrace (st : ServiceState)
    (ops : List Op) (h : registryConsistent st) (htr : SafeTrace st ops) :
    registryConsistent (runOps st ops) := by
  revert h
  induction htr with
  | nil st2 =>
    intro h
    exact h
  | cons st2 op ops2 hpre htail ih =>
    intro h
    exact ih (consistent_applyOp st2 op h hpre)

/-- A concrete safe trace: one session starts, is torn down, then a
different user's session starts. -/
def safeOps : List Op :=
  [Op.start "alice" "conv-a" "Savantist" 0 (some WsState.OPEN),
   Op.cleanup (streamIdFor "alice" 0) 61000,
   Op.start "bob" "conv-b" "AUtistic AI" 70000 none]

/-- Witness for C2 on the concrete trace `safeOps`. -/
theorem registry_consistent_of_safeTrace_witness :
    registryConsistent (runOps emptyState safeOps) := by
  apply registry_consistent_of_safeTrace
  · refine ⟨List.nodup_nil, List.nodup_nil, ?_, ?_⟩
    · intro stream sess hget
      exact Option.noConfusion hget
    · intro sid stream hget
      exact Option.noConfusion hget
  · refine SafeTrace.cons _ _ _ ⟨rfl, rfl⟩ ?_
    refine SafeTrace.cons _ _ _ trivial ?_
    refine SafeTrace.cons _ _ _ ⟨rfl, rfl⟩ ?_
    exact SafeTrace.nil _

/-- The trace refuting claim C2 as stated: the same `sessionId` starts a
second stream while the first is still active, then the first stream is
torn down. -/
def doubleStartOps : List Op :=
  [Op.start "s" "c" "p" 0 none,
   Op.start "s" "c" "p" 1 none,
   Op.cleanup (streamIdFor "s" 0) 2]

/-- Claim C2 counterexample: after `doubleStartOps` the primary registry
still holds the second stream's Session, but the secondary index has no
entry for its `sessionId` — the secondary entry was removed without the
primary one, so the indices are not added and removed together. -/
theorem registry_inconsistent_double_start :
    ¬ registryConsistent (runOps emptyState doubleStartOps) := by
  intro h
  have h1 : mapGet (runOps emptyState doubleStartOps).activeSessions
      (streamIdFor "s" 1) =
      some { sessionId := "s", conversationId := "c", personality := "p",
             elevenLabsWs := none, isActive := true, startTime := 1 } := by
    decide
  have h2 := h.2.2.1 _ _ h1
  have h3 : mapGet (runOps emptyState doubleStartOps).sessionKeyMap "s" =
      none := by decide
  exact Option.noConfusion (h3.symm.trans h2)

/-- Claim C5: registration stores the caller's `sessionId` verbatim — the
registered Session's `sessionId` field equals the one passed in — and
every usage report, webhook post, audit-log record and audio-cache entry
produced for that session carries that same `sessionId`. -/
theorem sessionId_preserved (st : ServiceState) (sid cid p : String)
    (now : Nat) (ws : Option WsState) :
    mapGet (initializeVoiceSession st sid cid p now ws).1.activeSessions
        (initializeVoiceSession st sid cid p now ws).2 =
      some { sessionId := sid, conversationId := cid, personality := p,
             elevenLabsWs := ws, isActive := true, startTime := now } ∧
    (∀ n2, usesOnlySessionId sid
      (cleanupSession (initializeVoiceSession st sid cid p now ws).1
        (initializeVoiceSession st sid cid p now ws).2 n2).2 = true) ∧
    (∀ text env, usesOnlySessionId sid
      (routeToN8NWebhook text
        { sessionId := sid, conversationId := cid, personality := p,
          elevenLabsWs := ws, isActive := true, startTime := now }
        p env).1 = true) ∧
    (∀ resp, usesOnlySessionId sid
      (onElevenLabsMessage resp
        { sessionId := sid, conversationId := cid, personality := p,
          elevenLabsWs := ws, isActive := true, startTime := now }) =
      true) := by
  have hreg : mapGet
      (initializeVoiceSession st sid cid p now ws).1.activeSessions
        (initializeVoiceSession st sid cid p now ws).2 =
      some { sessionId := sid, conversationId := cid, personality := p,
             elevenLabsWs := ws, isActive := true, startTime := now } :=
    mapGet_set_eq _ _ _
  refine ⟨hreg, ?_, ?_, ?_⟩
  · intro n2
    cases ws with
    | none =>
      simp [cleanupSession, hreg, usesOnlySessionId, effectSessionId]
    | some w =>
      simp [cleanupSession, hreg, usesOnlySessionId, effectSessionId]
  · intro text env
    cases h : env.postOutcome with
    | ok reply =>
      simp [routeToN8NWebhook, h, usesOnlySessionId, effectSessionId]
    | error e =>
      simp [routeToN8NWebhook, h, usesOnlySessionId, effectSessionId]
  · intro resp
    cases ha : resp.audio with
    | none => simp [onElevenLabsMessage, ha, usesOnlySessionId]
    | some a =>
      by_cases he : a = ""
      · simp [onElevenLabsMessage, ha, he, usesOnlySessionId]
      · cases hf : resp.isFinal with
        | none =>
          simp [onElevenLabsMessage, ha, he, hf, usesOnlySessionId,
            effectSessionId]
        | some b =>
          cases b <;>
            simp [onElevenLabsMessage, ha, he, hf, usesOnlySessionId,
              effectSessionId]

/-- No teardown happened in this effect trace: no usage report and no
close of the synthesis socket. -/
def teardownFree (effs : List Effect) : Bool :=
  effs.all fun e => !(isUsageReport e) && !(isCloseEleven e)

/-- Handling an inbound client message never reports usage and never
closes the synthesis socket — teardown effects only come from
`cleanupSession` on disconnect. -/
theorem handle_teardown_free (sess : VoiceStreamingSession)
    (msg : InboundMsg) (env : Env) :
    teardownFree (handleClientMessage sess msg env) = true := by
  have hpt : ∀ t, teardownFree (processTextInput t sess) = true := by
    intro t
    cases h : sess.elevenLabsWs with
    | none => simp [processTextInput, h, teardownFree]
    | some w =>
      cases w <;>
        simp [processTextInput, h, teardownFree, isUsageReport,
          isCloseEleven]
  have hstop : teardownFree (handleStopSpeaking sess) = true := by
    cases h : sess.elevenLabsWs with
    | none => simp [handleStopSpeaking, h, teardownFree]
    | some w =>
      cases w <;>
        simp [handleStopSpeaking, h, teardownFree, isUsageReport,
          isCloseEleven]
  have hroute : ∀ t p, teardownFree (routeToN8NWebhook t sess p env).1 =
      true := by
    intro t p
    cases h : env.postOutcome <;>
      simp [routeToN8NWebhook, h, teardownFree, isUsageReport,
        isCloseEleven]
  cases msg with
  | audioInput a =>
    simp only [handleClientMessage]
    cases ht : transcribeAudio env.geminiResult with
    | error e =>
      simp [processAudioInput, teardownFree, isUsageReport, isCloseEleven]
    | ok t =>
      by_cases hl : (jsTrim t).length = 0
      · simp [processAudioInput, hl, teardownFree, isUsageReport,
          isCloseEleven]
      · cases hp : env.postOutcome with
        | ok reply =>
          have h1 := hpt (responseTextOf reply t)
          simp [processAudioInput, hl, routeToN8NWebhook, hp,
            teardownFree, List.all_append, isUsageReport,
            isCloseEleven] at h1 ⊢
          exact h1
        | error e2 =>
          simp [processAudioInput, hl, routeToN8NWebhook, hp,
            teardownFree, isUsageReport, isCloseEleven]
  | textInput text =>
    cases hp : env.postOutcome with
    | ok reply =>
      have h1 := hpt (responseTextOf reply text)
      simp [handleClientMessage, routeToN8NWebhook, hp, teardownFree,
        List.all_append, isUsageReport, isCloseEleven] at h1 ⊢
      exact h1
    | error e2 =>
      simp [handleClientMessage, routeToN8NWebhook, hp, teardownFree,
        isUsageReport, isCloseEleven]
  | stop =>
    simpa [handleClientMessage] using hstop
  | unknown ty =>
    simp [handleClientMessage, teardownFree]

/-- A failing external environment: the webhook post throws. -/
def envErr : Env := { postOutcome := Except.error "boom" }

/-- Claim C6 (amended): per-message failures do not tear the session
down.  A transcription failure on `audio_input`, and a Router failure on
`audio_input`, each send exactly one `error` message to the client; a
Router failure on `text_input` is caught by the outer handler and sends
no client message at all.  In every case no usage is reported, the
synthesis link is not closed, the registry is untouched, and later
messages are handled by the same dispatcher on the same session. -/
theorem per_message_failure_keeps_session (st : ServiceState)
    (sess : VoiceStreamingSession) (env : Env) (msg : InboundMsg)
    (text er : String) (hpost : env.postOutcome = Except.error er) :
    (∀ e2, clientErrorCount
      (processAudioInput (Except.error e2) sess env) = 1) ∧
    (∀ t, (jsTrim t).length ≠ 0 →
      clientErrorCount (processAudioInput (Except.ok t) sess env) = 1) ∧
    clientErrorCount
      (handleClientMessage sess (InboundMsg.textInput text) env) = 0 ∧
    teardownFree (handleClientMessage sess msg env) = true ∧
    (onClientMessage st sess msg env).1 = st := by
  refine ⟨?_, ?_, ?_, handle_teardown_free sess msg env, rfl⟩
  · intro e2
    simp [processAudioInput, clientErrorCount, isClientError]
  · intro t ht
    simp [processAudioInput, ht, routeToN8NWebhook, hpost,
      clientErrorCount, isClientError, List.filter_append]
  · simp [handleClientMessage, routeToN8NWebhook, hpost,
      clientErrorCount, isClientError]

/-- Witness for C6 at concrete inputs with a failing webhook post. -/
theorem per_message_failure_keeps_session_witness :
    clientErrorCount
      (processAudioInput (Except.error "gem") savantSession envErr) = 1 ∧
    clientErrorCount
      (processAudioInput (Except.ok "hi") savantSession envErr) = 1 ∧
    clientErrorCount (handleClientMessage savantSession
      (InboundMsg.textInput "hi") envErr) = 0 ∧
    teardownFree (handleClientMessage savantSession
      (InboundMsg.textInput "hi") envErr) = true ∧
    (onClientMessage emptyState savantSession
      (InboundMsg.textInput "hi") envErr).1 = emptyState := by
  obtain ⟨h1, h2, h3, h4, h5⟩ :=
    per_message_failure_keeps_session emptyState savantSession envErr
      (InboundMsg.textInput "hi") "hi" "boom" rfl
  exact ⟨h1 "gem", h2 "hi" (by decide), h3, h4, h5⟩

/-- Claim C6 counterexample: a `text_input` message whose Router call
fails writes a failure audit record, but no `error` message is ever sent
to the client — refuting the claim that both message kinds report the
failure to the client. -/
theorem text_input_router_failure_silent :
    clientErrorCount (handleClientMessage savantSession
      (InboundMsg.textInput "hello")
      { postOutcome := Except.error "network" }) = 0 ∧
    logStatuses (handleClientMessage savantSession
      (InboundMsg.textInput "hello")
      { postOutcome := Except.error "network" }) = ["error"] := by
  refine ⟨by decide, by decide⟩

/-- Claim C8: on a `"Savantist"` session with an open synthesis link, an
inbound `text_input "Hello"` calls the Router with personality
`"Savantist"`, modality `"VOICE"` and content `"Hello"` (no
transcription-related effect occurs), and sends the synthesis adapter the
resolved reply with `try_trigger_generation: true`; a reply of
`{response: "Hi there"}` resolves to `"Hi there"`, while a reply with no
usable `response`/`text` field falls back to the raw submitted text. -/
theorem text_input_end_to_end (sess : VoiceStreamingSession) (env : Env)
    (reply : RouterReply) (hp : sess.personality = "Savantist")
    (hws : sess.elevenLabsWs = some WsState.OPEN)
    (hpost : env.postOutcome = Except.ok reply) :
    handleClientMessage sess (InboundMsg.textInput "Hello") env =
      [Effect.routerPost
        { personality := "Savantist", modality := "VOICE",
          sessionId := sess.sessionId,
          conversationId := sess.conversationId,
          content := "Hello",
          tier := jsOrStr (env.storedSession.bind fun s => s.tier)
            "Free Trial",
          tokenBalance :=
            jsOrNat (env.storedSession.bind fun s => s.tokenBalance) 0,
          walletAddress := env.storedSession.bind fun s => s.walletAddress,
          timestamp := env.now },
       Effect.webhookLog
        { sessionId := sess.sessionId,
          conversationId := sess.conversationId,
          requestPersonality := "Savantist", requestModality := "VOICE",
          requestContent := "Hello", status := "success" },
       Effect.sendEleven
        { text := responseTextOf reply "Hello",
          tryTriggerGeneration := some true, flush := none }] ∧
    (reply = { response := some "Hi there", text := none } →
      responseTextOf reply "Hello" = "Hi there") ∧
    ((reply.response = none ∨ reply.response = some "") →
      (reply.text = none ∨ reply.text = some "") →
      responseTextOf reply "Hello" = "Hello") := by
  refine ⟨?_, ?_, ?_⟩
  · simp [handleClientMessage, routeToN8NWebhook, hpost, hp,
      processTextInput, hws]
  · intro h
    subst h
    decide
  · intro h1 h2
    rcases h1 with h1 | h1 <;> rcases h2 with h2 | h2 <;>
      simp [responseTextOf, jsOrStr, h1, h2]

/-- Witness for C8: the concrete end-to-end scenario from the spec. -/
theorem text_input_end_to_end_witness :
    handleClientMessage savantSession (InboundMsg.textInput "Hello")
      { postOutcome := Except.ok { response := some "Hi there" } } =
      [Effect.routerPost
        { personality := "Savantist", modality := "VOICE",
          sessionId := "sess-1", conversationId := "conv-1",
          content := "Hello", tier := "Free Trial", tokenBalance := 0,
          walletAddress := none, timestamp := 0 },
       Effect.webhookLog
        { sessionId := "sess-1", conversationId := "conv-1",
          requestPersonality := "Savantist", requestModality := "VOICE",
          requestContent := "Hello", status := "success" },
       Effect.sendEleven
        { text := "Hi there", tryTriggerGeneration := some true,
          flush := none }] := by
  have h := text_input_end_to_end savantSession
    { postOutcome := Except.ok { response := some "Hi there" } }
    { response := some "Hi there" } rfl rfl rfl
  have h1 := h.1
  rw [h.2.1 rfl] at h1
  exact h1

end VoiceStreaming
